import Mathlib

/-!
# Verification of the utility-meter monitoring core

Shallow embedding of the meter-reading pipeline of the
`computer-vision-utility-monitor` repository:

* `src/src/meters/base_meter.py` — `BaseMeter.process_reading`,
  `BaseMeter.read_meter`, `BaseMeter.calculate_statistics`;
* `src/src/meters/water_meter.py` — `WaterMeter.validate_reading`;
* `src/src/meters/electric_meter.py` — `ElectricMeter.validate_reading`;
* `src/src/meters/gas_meter.py` — `GasMeter.validate_reading`.

Python floats are modelled by `FV`: either `nan` or a finite value, the
finite values taken as exact rationals.  The comparison operators mirror
IEEE-754 (any comparison involving `nan` is false), which is exactly the
semantics Python's `<`, `>`, `>=` give and is what the validation code
relies on.  Absent dictionary keys and `None` values are both modelled by
`Option.none` (the code treats them alike: an explicit `is None` check,
or a `TypeError`/`KeyError` caught by the surrounding `try`/`except`
which returns `False`).
-/

/-- A Python float as used by the meter code: `nan`, or a finite value
(finite values modelled exactly as rationals). -/
inductive FV where
  | nan : FV
  | num : ℚ → FV
deriving DecidableEq, Repr

namespace FV

/-- Python `<` on floats: false whenever an operand is `nan`. -/
def ltB : FV → FV → Bool
  | num a, num b => decide (a < b)
  | _, _ => false

/-- Python `>` on floats: false whenever an operand is `nan`. -/
def gtB : FV → FV → Bool
  | num a, num b => decide (b < a)
  | _, _ => false

/-- Python `>=` on floats: false whenever an operand is `nan`. -/
def geB : FV → FV → Bool
  | num a, num b => decide (b ≤ a)
  | _, _ => false

/-- Python `<=` on floats: false whenever an operand is `nan`. -/
def leB : FV → FV → Bool
  | num a, num b => decide (a ≤ b)
  | _, _ => false

/-- Python `-` on floats: `nan` propagates. -/
def sub : FV → FV → FV
  | num a, num b => num (a - b)
  | _, _ => nan

/-- Python `+` on floats: `nan` propagates. -/
def add : FV → FV → FV
  | num a, num b => num (a + b)
  | _, _ => nan

/-- Python `abs` on floats: `abs(nan) = nan`. -/
def fabs : FV → FV
  | num a => num |a|
  | nan => nan

/-- Division of a float by a (finite, nonzero in use) rational; `nan`
propagates.  Models `total_usage / duration_hours`. -/
def divQ : FV → ℚ → FV
  | num a, q => num (a / q)
  | nan, _ => nan

end FV

/-- One interpreted reading, as the dictionary fields the validators and
statistics code actually consult.  `timestamp` is in seconds (the Python
code stores ISO strings and converts differences to seconds).  A field
that is absent from the dictionary or bound to `None` is `Option.none`. -/
structure Reading where
  timestamp : ℚ
  total_reading : Option FV
  digital_reading : Option FV
  dial_reading : Option FV
deriving DecidableEq, Repr

/-- Which validation check fired, identified by the diagnostic the code
prints just before each `return False` in `validate_reading`.  The
function itself returns only a boolean; the printed message is the only
observable reason. -/
inductive Reason where
  /-- "Validation failed: Missing values" / "Missing total reading". -/
  | missingValue : Reason
  /-- Water only: "Validation failed: Total mismatch". -/
  | totalMismatch : Reason
  /-- Water only: "Validation failed: Dial out of range". -/
  | dialOutOfRange : Reason
  /-- Water only: "Validation failed: Negative digital reading". -/
  | negativeDigital : Reason
  /-- "Validation failed: Negative reading". -/
  | negativeReading : Reason
  /-- "Validation failed: Reading decreased". -/
  | readingDecreased : Reason
  /-- "Validation failed: Excessive change". -/
  | excessiveChange : Reason
  /-- The surrounding `try`/`except` caught an exception (e.g. a
  `TypeError` from comparing against a `None` stored in history) and
  returned `False`. -/
  | validationError : Reason
deriving DecidableEq, Repr

/-- Result of `validate_reading`: the code returns `True` (accepted) or
`False` together with a printed diagnostic (`rejected` with a `Reason`). -/
inductive ValidationOutcome where
  | accepted : ValidationOutcome
  | rejected : Reason → ValidationOutcome
deriving DecidableEq, Repr

namespace WaterMeter

/-- `WaterMeter.validate_reading` (src/src/meters/water_meter.py, lines
89-145).  `history` models `self.readings` (the accepted readings, in
order) and `max_change` models `self.max_change_per_reading`.  The checks
appear in source order: presence of the three fields, digital/dial/total
consistency within 0.01, dial in `[0, 1)`, non-negative digital, then —
only with non-empty history — no decrease and bounded change. -/
def validate_reading (r : Reading) (history : List Reading) (max_change : ℚ) :
    ValidationOutcome :=
  match r.total_reading, r.digital_reading, r.dial_reading with
  | some total, some digital, some dial =>
    if ((total.sub (digital.add dial)).fabs.gtB (FV.num (1/100))) then
      .rejected .totalMismatch
    else if (dial.ltB (FV.num 0) || dial.geB (FV.num 1)) then
      .rejected .dialOutOfRange
    else if (digital.ltB (FV.num 0)) then
      .rejected .negativeDigital
    else
      match history.getLast? with
      | none => .accepted
      | some lastR =>
        match lastR.total_reading with
        | none => .rejected .validationError
        | some lastv =>
          let change := total.sub lastv
          if change.ltB (FV.num 0) then .rejected .readingDecreased
          else if change.gtB (FV.num max_change) then .rejected .excessiveChange
          else .accepted
  | _, _, _ => .rejected .missingValue

end WaterMeter

namespace ElectricMeter

/-- `ElectricMeter.validate_reading` (src/src/meters/electric_meter.py,
lines 109-152): presence of `total_reading`, non-negativity, then — only
with non-empty history — no decrease and bounded change. -/
def validate_reading (r : Reading) (history : List Reading) (max_change : ℚ) :
    ValidationOutcome :=
  match r.total_reading with
  | none => .rejected .missingValue
  | some total =>
    if total.ltB (FV.num 0) then .rejected .negativeReading
    else
      match history.getLast? with
      | none => .accepted
      | some lastR =>
        match lastR.total_reading with
        | none => .rejected .validationError
        | some lastv =>
          let change := total.sub lastv
          if change.ltB (FV.num 0) then .rejected .readingDecreased
          else if change.gtB (FV.num max_change) then .rejected .excessiveChange
          else .accepted

end ElectricMeter

namespace GasMeter

/-- `GasMeter.validate_reading` (src/src/meters/gas_meter.py, lines
123-166): identical rule structure to the electric meter. -/
def validate_reading (r : Reading) (history : List Reading) (max_change : ℚ) :
    ValidationOutcome :=
  match r.total_reading with
  | none => .rejected .missingValue
  | some total =>
    if total.ltB (FV.num 0) then .rejected .negativeReading
    else
      match history.getLast? with
      | none => .accepted
      | some lastR =>
        match lastR.total_reading with
        | none => .rejected .validationError
        | some lastv =>
          let change := total.sub lastv
          if change.ltB (FV.num 0) then .rejected .readingDecreased
          else if change.gtB (FV.num max_change) then .rejected .excessiveChange
          else .accepted

end GasMeter

/-- The three concrete meter classes derived from `BaseMeter`. -/
inductive MeterKind where
  | water : MeterKind
  | electric : MeterKind
  | gas : MeterKind
deriving DecidableEq, Repr

/-- Dynamic dispatch of the abstract `BaseMeter.validate_reading` to the
subclass implementation. -/
def validate_for : MeterKind → Reading → List Reading → ℚ → ValidationOutcome
  | .water => WaterMeter.validate_reading
  | .electric => ElectricMeter.validate_reading
  | .gas => GasMeter.validate_reading

/-- The mutable per-meter state touched by `BaseMeter.process_reading`:
`self.readings` (the accepted-reading history) and
`self.consecutive_errors`. -/
structure MeterState where
  readings : List Reading
  consecutive_errors : Nat
deriving DecidableEq, Repr

/-- State of a freshly constructed meter (`BaseMeter.__init__`):
`self.readings = []`, `self.consecutive_errors = 0`. -/
def MeterState.initial : MeterState := { readings := [], consecutive_errors := 0 }

/-- What the external world contributes to one cycle: the capture step
failed, the interpretation step returned an error, or interpretation
succeeded and `parse_reading` produced a candidate `Reading`. -/
inductive CycleInput where
  | captureFailure : CycleInput
  | interpretFailure : CycleInput
  | interpreted : Reading → CycleInput
deriving DecidableEq, Repr

/-- Result of one `process_reading` call: the accepted reading, or an
error dictionary (capture / interpret / validation failure). -/
inductive CycleResult where
  | ok : Reading → CycleResult
  | cycleError : CycleResult
deriving DecidableEq, Repr

/-- `BaseMeter.process_reading` (src/src/meters/base_meter.py, lines
272-297) composed with `BaseMeter.read_meter` (lines 152-191), for a
meter of kind `kind` with threshold `max_change`, given the external
input of this cycle.  `read_meter` returns an error dictionary when
capture fails, when interpretation fails, or when `validate_reading`
rejects the parsed candidate; `process_reading` appends to
`self.readings` and zeroes `self.consecutive_errors` exactly on a
non-error result, and otherwise leaves `self.readings` untouched and
increments `self.consecutive_errors`. -/
def process_reading (kind : MeterKind) (max_change : ℚ) (st : MeterState)
    (input : CycleInput) : MeterState × CycleResult :=
  match input with
  | .captureFailure =>
    ({ st with consecutive_errors := st.consecutive_errors + 1 }, .cycleError)
  | .interpretFailure =>
    ({ st with consecutive_errors := st.consecutive_errors + 1 }, .cycleError)
  | .interpreted r =>
    match validate_for kind r st.readings max_change with
    | .accepted =>
      ({ readings := st.readings ++ [r], consecutive_errors := 0 }, .ok r)
    | .rejected _ =>
      ({ st with consecutive_errors := st.consecutive_errors + 1 }, .cycleError)

/-- Iterated cycles: run `process_reading` over a list of external
inputs, threading the meter state. -/
def run_cycles (kind : MeterKind) (max_change : ℚ) (st : MeterState) :
    List CycleInput → MeterState
  | [] => st
  | input :: rest =>
      run_cycles kind max_change (process_reading kind max_change st input).1 rest

/-- The summary dictionary built by `BaseMeter.calculate_statistics`
(src/src/meters/base_meter.py, lines 299-329), restricted to the numeric
fields. -/
structure Stats where
  num_readings : Nat
  duration_hours : ℚ
  total_usage : FV
  average_rate : FV
deriving DecidableEq, Repr

/-- `BaseMeter.calculate_statistics`: returns `None` when fewer than two
readings exist; otherwise duration in hours between first and last
reading, total usage as last minus first `total_reading`, and average
rate guarded by `if duration_hours > 0 else 0`.  Accepted readings
always carry `total_reading`; an absent field would raise in Python, and
is modelled by a `nan` default that no claim depends on. -/
def calculate_statistics (readings : List Reading) : Option Stats :=
  if readings.length < 2 then none
  else
    match readings.head?, readings.getLast? with
    | some firstR, some lastR =>
      let duration_hours := (lastR.timestamp - firstR.timestamp) / 3600
      let total_usage :=
        (lastR.total_reading.getD FV.nan).sub (firstR.total_reading.getD FV.nan)
      let average_rate :=
        if 0 < duration_hours then total_usage.divQ duration_hours else FV.num 0
      some { num_readings := readings.length, duration_hours := duration_hours,
             total_usage := total_usage, average_rate := average_rate }
    | _, _ => none

/-! ## Concrete readings used in witnesses and counterexamples -/

/-- A well-formed water reading with total 100.0 (digital 100, dial 0). -/
def r100 : Reading := ⟨0, some (FV.num 100), some (FV.num 100), some (FV.num 0)⟩

/-- A well-formed water reading with total 105.0, same timestamp as `r100`. -/
def r105 : Reading := ⟨0, some (FV.num 105), some (FV.num 105), some (FV.num 0)⟩

/-! ## C7 -/

/-- C7: for every history with fewer than 2 entries,
`calculate_statistics` returns `None` (insufficient data) and never a
summary. -/
theorem C7_insufficient_data (readings : List Reading)
    (h : readings.length < 2) : calculate_statistics readings = none := by
  simp [calculate_statistics, h]

/-- Witness for C7: both the empty history and a one-entry history give
`None`. -/
theorem C7_insufficient_data_witness :
    calculate_statistics [] = none ∧ calculate_statistics [r100] = none :=
  ⟨C7_insufficient_data [] (by decide), C7_insufficient_data [r100] (by decide)⟩

/-! ## C8 -/

/-- C8 counterexample: two entries with identical timestamps (duration
0, not strictly positive) still produce a summary — with
`average_rate = 0` — instead of `None` (insufficient data). -/
theorem C8_counterexample :
    calculate_statistics [r100, r105] =
      some { num_readings := 2, duration_hours := 0,
             total_usage := FV.num 5, average_rate := FV.num 0 } ∧
    calculate_statistics [r100, r105] ≠ none := by
  have h : calculate_statistics [r100, r105] =
      some { num_readings := 2, duration_hours := 0,
             total_usage := FV.num 5, average_rate := FV.num 0 } := by
    norm_num [calculate_statistics, r100, r105, FV.sub, FV.divQ]
  exact ⟨h, by rw [h]; exact Option.some_ne_none _⟩

/-- C8 amended: with at least 2 entries and a non-positive duration,
`calculate_statistics` does not return `None`; it returns a summary
whose `average_rate` is 0 (the division is guarded by
`if duration_hours > 0 else 0`). -/
theorem C8_amended (readings : List Reading) (firstR lastR : Reading)
    (h2 : 2 ≤ readings.length) (hf : readings.head? = some firstR)
    (hl : readings.getLast? = some lastR)
    (hd : lastR.timestamp - firstR.timestamp ≤ 0) :
    calculate_statistics readings =
      some { num_readings := readings.length,
             duration_hours := (lastR.timestamp - firstR.timestamp) / 3600,
             total_usage := (lastR.total_reading.getD FV.nan).sub
               (firstR.total_reading.getD FV.nan),
             average_rate := FV.num 0 } := by
  have hdur : ¬ (0 < (lastR.timestamp - firstR.timestamp) / 3600) := by
    have h3600 : (0:ℚ) ≤ 3600 := by norm_num
    exact not_lt.mpr (div_nonpos_of_nonpos_of_nonneg hd h3600)
  unfold calculate_statistics
  rw [if_neg (by omega), hf, hl]
  simp [hdur]

/-- Witness for C8 amended: instantiated at the two equal-timestamp
readings. -/
theorem C8_amended_witness :
    calculate_statistics [r100, r105] =
      some { num_readings := [r100, r105].length,
             duration_hours := (r105.timestamp - r100.timestamp) / 3600,
             total_usage := (r105.total_reading.getD FV.nan).sub
               (r100.total_reading.getD FV.nan),
             average_rate := FV.num 0 } :=
  C8_amended [r100, r105] r100 r105 (by decide) (by decide) (by decide)
    (by norm_num [r100, r105])

/-! ## C2 -/

/-- C2: a cycle whose candidate is rejected by validation leaves the
history untouched — same list, hence same length, same last element,
and identical derived statistics. -/
theorem C2_rejection_frame (kind : MeterKind) (max_change : ℚ)
    (st : MeterState) (r : Reading) (reason : Reason)
    (hrej : validate_for kind r st.readings max_change = .rejected reason) :
    (process_reading kind max_change st (.interpreted r)).1.readings
        = st.readings ∧
    (process_reading kind max_change st (.interpreted r)).1.readings.length
        = st.readings.length ∧
    (process_reading kind max_change st (.interpreted r)).1.readings.getLast?
        = st.readings.getLast? ∧
    calculate_statistics
        (process_reading kind max_change st (.interpreted r)).1.readings
        = calculate_statistics st.readings := by
  simp [process_reading, hrej]

/-- Witness for C2: an electric meter with history `[r100]` rejects a
candidate that decreased to 99, and the state's history is untouched. -/
theorem C2_rejection_frame_witness :
    (process_reading .electric 50 { readings := [r100], consecutive_errors := 0 }
        (.interpreted ⟨60, some (FV.num 99), some (FV.num 99), some (FV.num 0)⟩)).1.readings
      = [r100] ∧
    calculate_statistics
        (process_reading .electric 50 { readings := [r100], consecutive_errors := 0 }
          (.interpreted ⟨60, some (FV.num 99), some (FV.num 99), some (FV.num 0)⟩)).1.readings
      = calculate_statistics [r100] := by
  have h := C2_rejection_frame .electric 50
    { readings := [r100], consecutive_errors := 0 }
    ⟨60, some (FV.num 99), some (FV.num 99), some (FV.num 0)⟩ .readingDecreased
    (by norm_num [validate_for, ElectricMeter.validate_reading, r100,
      FV.ltB, FV.gtB, FV.sub])
  exact ⟨h.1, h.2.2.2⟩

/-! ## C9 -/

/-- C9: a cycle whose candidate passes validation appends the accepted
reading to the history and resets `consecutive_errors` to 0, returning
the accepted reading. -/
theorem C9_persist (kind : MeterKind) (max_change : ℚ) (st : MeterState)
    (r : Reading)
    (hacc : validate_for kind r st.readings max_change = .accepted) :
    process_reading kind max_change st (.interpreted r)
      = ({ readings := st.readings ++ [r], consecutive_errors := 0 }, .ok r) := by
  simp [process_reading, hacc]

/-- Witness for C9: an electric meter with history `[r100]` and a
consecutive-error count of 3 accepts 105, appends it and resets the
error count. -/
theorem C9_persist_witness :
    process_reading .electric 50 { readings := [r100], consecutive_errors := 3 }
        (.interpreted r105)
      = ({ readings := [r100, r105], consecutive_errors := 0 }, .ok r105) := by
  have h := C9_persist .electric 50 { readings := [r100], consecutive_errors := 3 }
    r105 (by norm_num [validate_for, ElectricMeter.validate_reading, r100, r105,
      FV.ltB, FV.gtB, FV.sub])
  simpa using h

/-! ## C5 -/

/-- C5 counterexample: a candidate whose `total_reading` is NaN is *not*
rejected with a missing-value diagnostic — against an empty history the
electric validator accepts it outright (every comparison against NaN is
false, and the code only checks `is None`). -/
theorem C5_counterexample :
    ElectricMeter.validate_reading ⟨0, some FV.nan, none, none⟩ [] 50
      = .accepted ∧
    ElectricMeter.validate_reading ⟨0, some FV.nan, none, none⟩ [] 50
      ≠ .rejected .missingValue := by
  constructor
  · simp [ElectricMeter.validate_reading, FV.ltB]
  · simp [ElectricMeter.validate_reading, FV.ltB]

/-- C5 amended: a candidate whose `total_reading` is null/absent is
rejected with the missing-value diagnostic by every validator and for
every history; a NaN value, however, is not detected (see the
counterexample). -/
theorem C5_amended :
    (∀ (ts : ℚ) (d l : Option FV) (hist : List Reading) (mx : ℚ),
      ElectricMeter.validate_reading ⟨ts, none, d, l⟩ hist mx
        = .rejected .missingValue) ∧
    (∀ (ts : ℚ) (d l : Option FV) (hist : List Reading) (mx : ℚ),
      GasMeter.validate_reading ⟨ts, none, d, l⟩ hist mx
        = .rejected .missingValue) ∧
    (∀ (r : Reading) (hist : List Reading) (mx : ℚ),
      r.total_reading = none ∨ r.digital_reading = none ∨ r.dial_reading = none →
      WaterMeter.validate_reading r hist mx = .rejected .missingValue) := by
  refine ⟨?_, ?_, ?_⟩
  · intro ts d l hist mx
    simp [ElectricMeter.validate_reading]
  · intro ts d l hist mx
    simp [GasMeter.validate_reading]
  · rintro ⟨ts, t, d, l⟩ hist mx h
    rcases t with _ | t <;> rcases d with _ | d <;> rcases l with _ | l <;>
      simp_all [WaterMeter.validate_reading]

/-- Witness for C5 amended: concrete candidates with an absent total. -/
theorem C5_amended_witness :
    WaterMeter.validate_reading ⟨0, none, none, none⟩ [] 10
      = .rejected .missingValue ∧
    ElectricMeter.validate_reading ⟨0, none, some (FV.num 1), some (FV.num 0)⟩ [] 50
      = .rejected .missingValue :=
  ⟨C5_amended.2.2 ⟨0, none, none, none⟩ [] 10 (Or.inl rfl),
   C5_amended.1 0 (some (FV.num 1)) (some (FV.num 0)) [] 50⟩

/-! ## C6 -/

/-- C6 counterexample: with an *empty* history, a water candidate whose
`total_reading` 5.0 is present and non-negative (Rules 1–2 pass) is
nevertheless rejected, because the water validator's internal
digital/dial consistency check also applies: here digital 1 + dial 0
does not match total 5. -/
theorem C6_counterexample :
    WaterMeter.validate_reading
        ⟨0, some (FV.num 5), some (FV.num 1), some (FV.num 0)⟩ [] 10
      = .rejected .totalMismatch ∧
    (FV.num 5).ltB (FV.num 0) = false := by
  constructor
  · norm_num [WaterMeter.validate_reading, FV.gtB, FV.fabs, FV.sub, FV.add]
  · simp [FV.ltB]

/-- C6 amended: with an empty history the decrease/delta rules are
vacuous for every kind; for electric and gas meters acceptance is then
decided exactly by presence and non-negativity of `total_reading`, while
the water meter additionally applies its internal-consistency checks; a
well-formed 5.0 candidate is accepted by all three kinds. -/
theorem C6_amended :
    (∀ (r : Reading) (mx : ℚ),
      ElectricMeter.validate_reading r [] mx = .accepted ↔
        ∃ t, r.total_reading = some t ∧ t.ltB (FV.num 0) = false) ∧
    (∀ (r : Reading) (mx : ℚ),
      GasMeter.validate_reading r [] mx = .accepted ↔
        ∃ t, r.total_reading = some t ∧ t.ltB (FV.num 0) = false) ∧
    (∀ mx : ℚ, WaterMeter.validate_reading
        ⟨0, some (FV.num 5), some (FV.num 5), some (FV.num 0)⟩ [] mx
      = .accepted) ∧
    (∀ mx : ℚ, ElectricMeter.validate_reading
        ⟨0, some (FV.num 5), none, none⟩ [] mx = .accepted) ∧
    (∀ mx : ℚ, GasMeter.validate_reading
        ⟨0, some (FV.num 5), none, none⟩ [] mx = .accepted) := by
  refine ⟨?_, ?_, ?_, ?_, ?_⟩
  · rintro ⟨ts, t, d, l⟩ mx
    rcases t with _ | t <;> simp [ElectricMeter.validate_reading]
  · rintro ⟨ts, t, d, l⟩ mx
    rcases t with _ | t <;> simp [GasMeter.validate_reading]
  · intro mx
    norm_num [WaterMeter.validate_reading, FV.gtB, FV.fabs, FV.sub, FV.add,
      FV.ltB, FV.geB]
  · intro mx
    simp [ElectricMeter.validate_reading, FV.ltB]
  · intro mx
    simp [GasMeter.validate_reading, FV.ltB]

/-! ## C10 -/

/-- C10: the water validator imposes internal-consistency checks beyond
Rules 1–4, even with an empty history: a candidate is rejected unless all
three fields are present; and for numeric fields and empty history it is
accepted exactly when `|total - (digital + dial)| ≤ 0.01`,
`0 ≤ dial < 1` and `0 ≤ digital`. -/
theorem C10_water_internal_checks :
    (∀ (r : Reading) (hist : List Reading) (mx : ℚ),
      (r.total_reading = none ∨ r.digital_reading = none ∨
        r.dial_reading = none) →
      WaterMeter.validate_reading r hist mx ≠ .accepted) ∧
    (∀ (ts t d l mx : ℚ),
      WaterMeter.validate_reading
          ⟨ts, some (FV.num t), some (FV.num d), some (FV.num l)⟩ [] mx
        = .accepted ↔
      (|t - (d + l)| ≤ 1/100 ∧ 0 ≤ l ∧ l < 1 ∧ 0 ≤ d)) := by
  refine ⟨?_, ?_⟩
  · rintro ⟨ts, t, d, l⟩ hist mx h
    rcases t with _ | t <;> rcases d with _ | d <;> rcases l with _ | l <;>
      simp_all [WaterMeter.validate_reading]
  · intro ts t d l mx
    by_cases h1 : (100:ℚ)⁻¹ < |t - (d + l)|
    · simp [WaterMeter.validate_reading, FV.gtB, FV.fabs, FV.sub, FV.add, h1]
    · by_cases h2 : l < 0
      · simp [WaterMeter.validate_reading, FV.gtB, FV.fabs, FV.sub, FV.add,
          FV.ltB, FV.geB, h1, h2]
      · by_cases h3 : (1:ℚ) ≤ l
        · simp [WaterMeter.validate_reading, FV.gtB, FV.fabs, FV.sub, FV.add,
            FV.ltB, FV.geB, h1, h2, h3]
        · by_cases h4 : d < 0
          · simp [WaterMeter.validate_reading, FV.gtB, FV.fabs, FV.sub, FV.add,
              FV.ltB, FV.geB, h1, h2, h3, h4]
          · simp [WaterMeter.validate_reading, FV.gtB, FV.fabs, FV.sub, FV.add,
              FV.ltB, FV.geB, h1, h2, h3, h4]
            exact ⟨not_lt.1 h1, not_lt.1 h2, not_le.1 h3, not_lt.1 h4⟩

/-- Witness for C10: a water candidate with an absent total is not
accepted, and an internally consistent candidate (total 0.5 = digital 0
+ dial 0.5) is accepted against an empty history. -/
theorem C10_water_internal_checks_witness :
    WaterMeter.validate_reading ⟨0, none, some (FV.num 1), some (FV.num 0)⟩ [] 10
      ≠ .accepted ∧
    WaterMeter.validate_reading
        ⟨0, some (FV.num (1/2)), some (FV.num 0), some (FV.num (1/2))⟩ [] 10
      = .accepted :=
  ⟨C10_water_internal_checks.1 ⟨0, none, some (FV.num 1), some (FV.num 0)⟩ [] 10
      (Or.inl rfl),
   (C10_water_internal_checks.2 0 (1/2) 0 (1/2) 10).mpr (by norm_num)⟩

/-! ## C4 -/

/-- C4 counterexample: with history `[100.0]`, a candidate with
`total_reading = -5` is strictly below the last accepted value, yet it
is rejected by the earlier non-negativity rule ("Negative reading"), not
with the "Reading decreased" diagnostic. -/
theorem C4_counterexample :
    ElectricMeter.validate_reading ⟨60, some (FV.num (-5)), none, none⟩ [r100] 50
      = .rejected .negativeReading ∧
    ElectricMeter.validate_reading ⟨60, some (FV.num (-5)), none, none⟩ [r100] 50
      ≠ .rejected .readingDecreased ∧
    (FV.num (-5)).ltB (FV.num 100) = true := by
  refine ⟨?_, ?_, ?_⟩
  · norm_num [ElectricMeter.validate_reading, FV.ltB]
  · norm_num [ElectricMeter.validate_reading, FV.ltB]
    decide
  · norm_num [FV.ltB]

/-- C4 amended: a candidate that passes the earlier checks (presence and
non-negativity; for water also the internal digital/dial consistency
checks) and whose numeric total is strictly below the numeric last
accepted total is rejected with the "Reading decreased" diagnostic; a
candidate failing an earlier check is rejected with that check's
diagnostic instead. -/
theorem C4_amended :
    (∀ (hist : List Reading) (lastR : Reading) (L : ℚ) (r : Reading) (t mx : ℚ),
      hist.getLast? = some lastR → lastR.total_reading = some (FV.num L) →
      r.total_reading = some (FV.num t) → 0 ≤ t → t < L →
      ElectricMeter.validate_reading r hist mx = .rejected .readingDecreased) ∧
    (∀ (hist : List Reading) (lastR : Reading) (L : ℚ) (r : Reading) (t mx : ℚ),
      hist.getLast? = some lastR → lastR.total_reading = some (FV.num L) →
      r.total_reading = some (FV.num t) → 0 ≤ t → t < L →
      GasMeter.validate_reading r hist mx = .rejected .readingDecreased) ∧
    (∀ (hist : List Reading) (lastR : Reading) (L ts t d l mx : ℚ),
      hist.getLast? = some lastR → lastR.total_reading = some (FV.num L) →
      |t - (d + l)| ≤ 1/100 → 0 ≤ l → l < 1 → 0 ≤ d → t < L →
      WaterMeter.validate_reading
          ⟨ts, some (FV.num t), some (FV.num d), some (FV.num l)⟩ hist mx
        = .rejected .readingDecreased) := by
  refine ⟨?_, ?_, ?_⟩
  · intro hist lastR L r t mx hgl hL ht h0 hlt
    have h0' : ¬ t < 0 := not_lt.2 h0
    have hneg : t - L < 0 := sub_neg.mpr hlt
    simp [ElectricMeter.validate_reading, ht, hgl, hL, FV.ltB, FV.sub, h0', hneg]
  · intro hist lastR L r t mx hgl hL ht h0 hlt
    have h0' : ¬ t < 0 := not_lt.2 h0
    have hneg : t - L < 0 := sub_neg.mpr hlt
    simp [GasMeter.validate_reading, ht, hgl, hL, FV.ltB, FV.sub, h0', hneg]
  · intro hist lastR L ts t d l mx hgl hL hmis h0l hl1 h0d hlt
    have h1' : ¬ ((100:ℚ)⁻¹ < |t - (d + l)|) := by
      rw [← one_div]
      exact not_lt.2 hmis
    have h2' : ¬ l < 0 := not_lt.2 h0l
    have h3' : ¬ (1:ℚ) ≤ l := not_le.2 hl1
    have h4' : ¬ d < 0 := not_lt.2 h0d
    have hneg : t - L < 0 := sub_neg.mpr hlt
    simp [WaterMeter.validate_reading, hgl, hL, FV.ltB, FV.geB, FV.gtB,
      FV.sub, FV.add, FV.fabs, h1', h2', h3', h4', hneg]

/-- Witness for C4 amended: with history `[100.0]` an electric candidate
of 99.0 is rejected with the "Reading decreased" diagnostic. -/
theorem C4_amended_witness :
    ElectricMeter.validate_reading ⟨60, some (FV.num 99), none, none⟩ [r100] 50
      = .rejected .readingDecreased :=
  C4_amended.1 [r100] r100 100 ⟨60, some (FV.num 99), none, none⟩ 99 50 rfl rfl
    rfl (by norm_num) (by norm_num)

/-! ## C3 -/

/-- C3 counterexample: a water candidate whose change from the last
accepted value (201.5 − 100 = 101.5) exceeds the threshold 10 is
nevertheless rejected with the dial-range diagnostic, because the dial
value 1.5 trips the earlier internal-consistency check; so "rejects with
excessive change exactly when the delta exceeds the threshold" fails as
an equivalence. -/
theorem C3_counterexample :
    WaterMeter.validate_reading
        ⟨60, some (FV.num (403/2)), some (FV.num 200), some (FV.num (3/2))⟩
        [r100] 10
      = .rejected .dialOutOfRange ∧
    WaterMeter.validate_reading
        ⟨60, some (FV.num (403/2)), some (FV.num 200), some (FV.num (3/2))⟩
        [r100] 10
      ≠ .rejected .excessiveChange ∧
    ((FV.num (403/2)).sub (FV.num 100)).gtB (FV.num 10) = true := by
  refine ⟨?_, ?_, ?_⟩
  · norm_num [WaterMeter.validate_reading, FV.gtB, FV.fabs, FV.sub, FV.add,
      FV.ltB, FV.geB]
  · norm_num [WaterMeter.validate_reading, FV.gtB, FV.fabs, FV.sub, FV.add,
      FV.ltB, FV.geB]
    decide
  · norm_num [FV.gtB, FV.sub]

/-- C3 amended: for the electric meter, with a numeric non-negative last
value and a non-negative threshold, validation rejects with the
excessive-change diagnostic exactly when the candidate's numeric total
exceeds the last value by more than the threshold.  For the water meter
the forward direction holds unconditionally, and the backward direction
holds for candidates passing the internal digital/dial consistency
checks.  The claim's concrete instances hold: against history `[100.0]`
with threshold 10, a 105.0 candidate is accepted (both meters). -/
theorem C3_amended :
    (∀ (hist : List Reading) (lastR : Reading) (L : ℚ) (r : Reading) (mx : ℚ),
      hist.getLast? = some lastR → lastR.total_reading = some (FV.num L) →
      0 ≤ L → 0 ≤ mx →
      (ElectricMeter.validate_reading r hist mx = .rejected .excessiveChange ↔
        ∃ t, r.total_reading = some (FV.num t) ∧ mx < t - L)) ∧
    (∀ (hist : List Reading) (r : Reading) (mx : ℚ),
      WaterMeter.validate_reading r hist mx = .rejected .excessiveChange →
      ∃ (lastR : Reading) (L t : ℚ), hist.getLast? = some lastR ∧
        lastR.total_reading = some (FV.num L) ∧
        r.total_reading = some (FV.num t) ∧ mx < t - L) ∧
    (∀ (hist : List Reading) (lastR : Reading) (L ts t d l mx : ℚ),
      hist.getLast? = some lastR → lastR.total_reading = some (FV.num L) →
      |t - (d + l)| ≤ 1/100 → 0 ≤ l → l < 1 → 0 ≤ d → 0 ≤ mx → mx < t - L →
      WaterMeter.validate_reading
          ⟨ts, some (FV.num t), some (FV.num d), some (FV.num l)⟩ hist mx
        = .rejected .excessiveChange) ∧
    WaterMeter.validate_reading
        ⟨60, some (FV.num 105), some (FV.num 105), some (FV.num 0)⟩ [r100] 10
      = .accepted ∧
    ElectricMeter.validate_reading ⟨60, some (FV.num 105), none, none⟩ [r100] 10
      = .accepted := by
  refine ⟨?_, ?_, ?_, ?_, ?_⟩
  · intro hist lastR L r mx hgl hL h0L h0mx
    obtain ⟨ts, tv, dv, lv⟩ := r
    rcases tv with _ | tv
    · simp [ElectricMeter.validate_reading]
    rcases tv with _ | t
    · simp [ElectricMeter.validate_reading, hgl, hL, FV.ltB, FV.sub, FV.gtB]
    by_cases hneg : t < 0
    · have hno : ¬ mx < t - L := by push_neg; linarith
      simp [ElectricMeter.validate_reading, hgl, hL, FV.ltB, FV.sub, FV.gtB,
        hneg, hno]
    by_cases hdec : t - L < 0
    · have hno : ¬ mx < t - L := by push_neg; linarith
      simp [ElectricMeter.validate_reading, hgl, hL, FV.ltB, FV.sub, FV.gtB,
        hneg, hdec, hno]
    by_cases hexc : mx < t - L
    · simp [ElectricMeter.validate_reading, hgl, hL, FV.ltB, FV.sub, FV.gtB,
        hneg, hdec, hexc]
    · simp [ElectricMeter.validate_reading, hgl, hL, FV.ltB, FV.sub, FV.gtB,
        hneg, hdec, hexc]
  · rintro hist ⟨ts, tv, dv, lv⟩ mx h
    rcases tv with _ | tv
    · simp [WaterMeter.validate_reading] at h
    rcases dv with _ | dv
    · simp [WaterMeter.validate_reading] at h
    rcases lv with _ | lv
    · simp [WaterMeter.validate_reading] at h
    simp only [WaterMeter.validate_reading] at h
    split_ifs at h
    · simp at h
    · simp at h
    · simp at h
    rcases hgl : hist.getLast? with _ | lastR
    · rw [hgl] at h
      simp at h
    rw [hgl] at h
    dsimp only at h
    rcases hlv : lastR.total_reading with _ | lastv
    · rw [hlv] at h
      simp at h
    rw [hlv] at h
    dsimp only at h
    split_ifs at h with hdec hexc
    · simp at h
    · rcases tv with _ | t
      · simp [FV.sub, FV.gtB] at hexc
      rcases lastv with _ | L
      · simp [FV.sub, FV.gtB] at hexc
      refine ⟨lastR, L, t, rfl, hlv, rfl, ?_⟩
      simpa [FV.sub, FV.gtB] using hexc
  · intro hist lastR L ts t d l mx hgl hL hmis h0l hl1 h0d h0mx hexc
    have h1' : ¬ ((100:ℚ)⁻¹ < |t - (d + l)|) := by
      rw [← one_div]
      exact not_lt.2 hmis
    have h2' : ¬ l < 0 := not_lt.2 h0l
    have h3' : ¬ (1:ℚ) ≤ l := not_le.2 hl1
    have h4' : ¬ d < 0 := not_lt.2 h0d
    have hnodec : ¬ t - L < 0 := by push_neg; linarith
    simp [WaterMeter.validate_reading, hgl, hL, FV.ltB, FV.geB, FV.gtB,
      FV.sub, FV.add, FV.fabs, h1', h2', h3', h4', hnodec, hexc]
  · norm_num [WaterMeter.validate_reading, FV.gtB, FV.fabs, FV.sub, FV.add,
      FV.ltB, FV.geB, r100]
  · norm_num [ElectricMeter.validate_reading, FV.ltB, FV.sub, FV.gtB, r100]

/-- Witness for C3 amended: with history `[100.0]` and threshold 10 a
111.0 candidate is rejected with the excessive-change diagnostic, for
both the electric meter and a well-formed water candidate. -/
theorem C3_amended_witness :
    ElectricMeter.validate_reading ⟨60, some (FV.num 111), none, none⟩ [r100] 10
      = .rejected .excessiveChange ∧
    WaterMeter.validate_reading
        ⟨60, some (FV.num 111), some (FV.num 111), some (FV.num 0)⟩ [r100] 10
      = .rejected .excessiveChange :=
  ⟨(C3_amended.1 [r100] r100 100 ⟨60, some (FV.num 111), none, none⟩ 10 rfl rfl
      (by norm_num) (by norm_num)).mpr ⟨111, rfl, by norm_num⟩,
   C3_amended.2.2.1 [r100] r100 100 60 111 111 0 10 rfl rfl (by norm_num)
      (by norm_num) (by norm_num) (by norm_num) (by norm_num) (by norm_num)⟩

/-! ## C1 -/

/-- Relation between two consecutive history entries: whenever both
carry numeric totals, the later is at least the earlier. -/
def monoStep (r1 r2 : Reading) : Prop :=
  ∀ a b : ℚ, r1.total_reading = some (FV.num a) →
    r2.total_reading = some (FV.num b) → a ≤ b

/-- Adjacent-numeric monotonicity of a history. -/
def AdjMono (l : List Reading) : Prop := l.Chain' monoStep

/-- An accepted candidate relates to the last history entry by
`monoStep`: if both totals are numeric the candidate is at least the
last accepted value, for every meter kind. -/
theorem validate_accept_mono (kind : MeterKind) (r : Reading)
    (hist : List Reading) (mx : ℚ) (lastR : Reading)
    (hgl : hist.getLast? = some lastR)
    (hacc : validate_for kind r hist mx = .accepted) :
    monoStep lastR r := by
  intro a b hla hrb
  by_contra hab
  push_neg at hab
  have hba : b - a < 0 := by linarith
  cases kind
  case electric =>
    simp only [validate_for, ElectricMeter.validate_reading] at hacc
    rw [hrb, hgl] at hacc
    dsimp only at hacc
    rw [hla] at hacc
    dsimp only at hacc
    split_ifs at hacc with h1 h2 h3
    exact h2 (by simp [FV.sub, FV.ltB]; linarith)
  case gas =>
    simp only [validate_for, GasMeter.validate_reading] at hacc
    rw [hrb, hgl] at hacc
    dsimp only at hacc
    rw [hla] at hacc
    dsimp only at hacc
    split_ifs at hacc with h1 h2 h3
    exact h2 (by simp [FV.sub, FV.ltB]; linarith)
  case water =>
    rcases hd : r.digital_reading with _ | dv
    · simp [validate_for, WaterMeter.validate_reading, hrb, hd] at hacc
    rcases hdl : r.dial_reading with _ | lv
    · simp [validate_for, WaterMeter.validate_reading, hrb, hd, hdl] at hacc
    simp only [validate_for, WaterMeter.validate_reading] at hacc
    rw [hrb, hd, hdl, hgl] at hacc
    dsimp only at hacc
    rw [hla] at hacc
    dsimp only at hacc
    split_ifs at hacc with h1 h2 h3 h4 h5
    exact h4 (by simp [FV.sub, FV.ltB]; linarith)

/-- One cycle only ever extends the history: the old history is a
prefix of the new one. -/
theorem process_reading_extends (kind : MeterKind) (mx : ℚ) (st : MeterState)
    (i : CycleInput) :
    st.readings <+: (process_reading kind mx st i).1.readings := by
  rcases i with _ | _ | r
  · simp [process_reading]
  · simp [process_reading]
  · rcases h : validate_for kind r st.readings mx with _ | reason
    · simp [process_reading, h]
    · simp [process_reading, h]

/-- Any sequence of cycles only ever extends the history (append-only:
entries are never mutated or removed). -/
theorem run_cycles_extends (kind : MeterKind) (mx : ℚ) (st : MeterState)
    (inputs : List CycleInput) :
    st.readings <+: (run_cycles kind mx st inputs).readings := by
  induction inputs generalizing st with
  | nil => simp [run_cycles]
  | cons i rest ih =>
    exact (process_reading_extends kind mx st i).trans (ih _)

/-- One cycle preserves adjacent-numeric monotonicity of the history. -/
theorem process_reading_adjMono (kind : MeterKind) (mx : ℚ) (st : MeterState)
    (i : CycleInput) (h : AdjMono st.readings) :
    AdjMono (process_reading kind mx st i).1.readings := by
  rcases i with _ | _ | r
  · simpa [process_reading] using h
  · simpa [process_reading] using h
  · rcases hv : validate_for kind r st.readings mx with _ | reason
    · simp only [process_reading, hv]
      rw [AdjMono, List.chain'_append]
      refine ⟨h, List.chain'_singleton _, ?_⟩
      intro x hx y hy
      simp only [List.head?_cons, Option.mem_def, Option.some.injEq] at hy
      subst hy
      exact validate_accept_mono kind r st.readings mx x (by simpa using hx) hv
    · simpa [process_reading, hv] using h

/-- Any sequence of cycles preserves adjacent-numeric monotonicity. -/
theorem run_cycles_adjMono (kind : MeterKind) (mx : ℚ) (st : MeterState)
    (inputs : List CycleInput) (h : AdjMono st.readings) :
    AdjMono (run_cycles kind mx st inputs).readings := by
  induction inputs generalizing st with
  | nil => simpa [run_cycles] using h
  | cons i rest ih => exact ih _ (process_reading_adjMono kind mx st i h)

/-- C1 counterexample: validation does not detect NaN, so the sequence
of interpreted totals 100, NaN, 5 is accepted in full; the resulting
history is not monotonically non-decreasing — `100 <= NaN` is false
(float comparison), and the numeric value 5 at index 2 is below the
numeric value 100 at index 0. -/
theorem C1_counterexample :
    ((run_cycles .electric 50 MeterState.initial
        [.interpreted ⟨0, some (FV.num 100), none, none⟩,
         .interpreted ⟨60, some FV.nan, none, none⟩,
         .interpreted ⟨120, some (FV.num 5), none, none⟩]).readings.map
        (fun r => r.total_reading))
      = [some (FV.num 100), some FV.nan, some (FV.num 5)] ∧
    (FV.num 100).leB FV.nan = false ∧
    (FV.num 100).leB (FV.num 5) = false := by
  refine ⟨?_, rfl, ?_⟩
  · norm_num [run_cycles, process_reading, validate_for,
      ElectricMeter.validate_reading, MeterState.initial, FV.ltB, FV.gtB,
      FV.sub]
  · norm_num [FV.leB]

/-- C1 amended: the history is append-only under arbitrary cycles
(never mutated or removed, only extended), and it is monotonically
non-decreasing between consecutive entries whose totals are both
numeric; an accepted NaN entry (possible, since validation does not
detect NaN) breaks the chain, so monotonicity cannot be stated across
such an entry. -/
theorem C1_amended (kind : MeterKind) (mx : ℚ) (st : MeterState)
    (inputs : List CycleInput) (h : AdjMono st.readings) :
    st.readings <+: (run_cycles kind mx st inputs).readings ∧
    AdjMono (run_cycles kind mx st inputs).readings :=
  ⟨run_cycles_extends kind mx st inputs, run_cycles_adjMono kind mx st inputs h⟩

/-- Witness for C1 amended: two accepted electric readings starting
from the initial state. -/
theorem C1_amended_witness :
    MeterState.initial.readings <+:
      (run_cycles .electric 50 MeterState.initial
        [.interpreted r100, .interpreted r105]).readings ∧
    AdjMono (run_cycles .electric 50 MeterState.initial
        [.interpreted r100, .interpreted r105]).readings :=
  C1_amended .electric 50 MeterState.initial [.interpreted r100, .interpreted r105]
    List.chain'_nil
